import Mathlib

/-!
Shallow embedding of the go-redis-limiter core in Lean 4.

Conventions of the embedding:
* Lua / Go floating point numbers (token counts, rates, capacities,
  millisecond timestamps) are modelled as rationals, so the arithmetic of
  the scripts is exact.
* A Redis string cell is `Option` of its parsed numeric value; `none`
  means the key is absent.
* Each atomic script is a pure function from the pre-state and its
  arguments to a result record holding the 0/1 verdict, the post-state,
  and the TTL applied by the write (or `none` when nothing was written).
* Go `time.Duration` configuration fields are integers counting
  nanoseconds, exactly as in Go.
-/

/-- Store-resident state of one token-bucket key pair: the tokens cell and
the last-refill timestamp cell (milliseconds). -/
structure TokenBucketState where
  tokens : Option ℚ
  ts : Option ℚ
deriving DecidableEq, Repr

/-- Result of one invocation of a token-bucket style script. -/
structure TokenBucketResult where
  allowed : Bool
  state : TokenBucketState
  writtenTTL : Option ℚ
deriving DecidableEq, Repr

/-- The atomic token-bucket script of part_007 (`tokenBucketScript`),
translated statement by statement from the Lua source:
read tokens (default capacity) and lastTs (default now), clamp a negative
delta to zero, refill, clamp to capacity, deny without writing when
tokens < req, otherwise consume and write both keys with the given TTL. -/
def tokenBucketScript (s : TokenBucketState) (now rate capacity req ttl : ℚ) :
    TokenBucketResult :=
  let tokens0 := s.tokens.getD capacity
  let lastTs := s.ts.getD now
  let delta0 := now - lastTs
  let delta := if delta0 < 0 then 0 else delta0
  let refill := delta * rate / 1000
  let tokens1 := tokens0 + refill
  let tokens2 := if tokens1 > capacity then capacity else tokens1
  if tokens2 < req then
    { allowed := false, state := s, writtenTTL := none }
  else
    { allowed := true
      state := { tokens := some (tokens2 - req), ts := some now }
      writtenTTL := some ttl }

/-- The admission step exactly as the claim words it: tokens defaults to
capacity, lastTs to now; delta = max 0 (now - lastTs);
refill = delta * rate / 1000; tokens = min capacity (tokens + refill);
deny (write nothing) when tokens < request, otherwise subtract the request
and write both keys with the TTL. Stated from the specification to be
compared with `tokenBucketScript`. -/
def tokenBucketStepFromSpec (s : TokenBucketState) (now rate capacity req ttl : ℚ) :
    TokenBucketResult :=
  let tokens0 := s.tokens.getD capacity
  let lastTs := s.ts.getD now
  let delta := max 0 (now - lastTs)
  let refill := delta * rate / 1000
  let tokens1 := min capacity (tokens0 + refill)
  if tokens1 < req then
    { allowed := false, state := s, writtenTTL := none }
  else
    { allowed := true
      state := { tokens := some (tokens1 - req), ts := some now }
      writtenTTL := some ttl }

/-- The legacy token-bucket script of redis_key_limiter.go
(`tokenBucketScript` there, used by ShardedRedisTokenBucket). Note the
different ARGV order (rate, capacity, now, request, ttl) and that both
keys are written on every invocation, denials included. A state holding a
tokens value but no ts value makes the Lua source perform arithmetic on
nil, a script runtime error, modelled as `none`. -/
def legacyTokenBucketScript (s : TokenBucketState) (rate capacity now request ttl : ℚ) :
    Option TokenBucketResult :=
  match s.tokens with
  | none =>
    let tokens := capacity
    let ts := now
    some (if tokens ≥ request then
      { allowed := true
        state := { tokens := some (tokens - request), ts := some ts }
        writtenTTL := some ttl }
    else
      { allowed := false
        state := { tokens := some tokens, ts := some ts }
        writtenTTL := some ttl })
  | some tokens0 =>
    match s.ts with
    | none => none
    | some ts0 =>
      let delta := now - ts0
      let tokens := if delta > 0 then min capacity (tokens0 + delta * rate / 1000) else tokens0
      let ts := if delta > 0 then now else ts0
      some (if tokens ≥ request then
        { allowed := true
          state := { tokens := some (tokens - request), ts := some ts }
          writtenTTL := some ttl }
      else
        { allowed := false
          state := { tokens := some tokens, ts := some ts }
          writtenTTL := some ttl })

/-- Store-resident state of one leaky-bucket key pair. -/
structure LeakyBucketState where
  bucket : Option ℚ
  ts : Option ℚ
deriving DecidableEq, Repr

/-- Result of one invocation of the leaky-bucket script. -/
structure LeakyBucketResult where
  allowed : Bool
  state : LeakyBucketState
  writtenTTL : Option ℚ
deriving DecidableEq, Repr

/-- The atomic leaky-bucket script of part_007 (`leakyBucketScript`):
level defaults to 0, lastTs to now; negative delta clamped to zero; leak
subtracted and floored at zero; deny without writing when
level + req > capacity, otherwise add the request and write both keys. -/
def leakyBucketScript (s : LeakyBucketState) (now leakRate capacity req ttl : ℚ) :
    LeakyBucketResult :=
  let level0 := s.bucket.getD 0
  let lastTs := s.ts.getD now
  let delta0 := now - lastTs
  let delta := if delta0 < 0 then 0 else delta0
  let leak := delta * leakRate / 1000
  let level1 := level0 - leak
  let level2 := if level1 < 0 then 0 else level1
  if level2 + req > capacity then
    { allowed := false, state := s, writtenTTL := none }
  else
    { allowed := true
      state := { bucket := some (level2 + req), ts := some now }
      writtenTTL := some ttl }

/-- One member of the sliding-window ZSET log: its score and the two
components of the unique member string "now-seq". -/
structure SlidingWindowEntry where
  score : ℚ
  memberNow : ℚ
  memberSeq : ℕ
deriving DecidableEq, Repr

/-- Store-resident state of one sliding-window key pair: the ZSET log and
the INCR sequence cell. -/
structure SlidingWindowState where
  log : List SlidingWindowEntry
  seq : Option ℕ
deriving DecidableEq, Repr

/-- Result of one invocation of the sliding-window script. -/
structure SlidingWindowResult where
  allowed : Bool
  state : SlidingWindowState
  writtenTTL : Option ℚ
deriving DecidableEq, Repr

/-- The atomic sliding-window script of part_007 (`slidingWindowScript`):
first ZREMRANGEBYSCORE log 0 (now-window) removes entries with score in
[0, now-window] (this purge persists even on denial), then the remaining
cardinality is compared with the limit; on admission INCR the sequence,
ZADD the member (update if present, append otherwise) and refresh both
TTLs. -/
def slidingWindowScript (s : SlidingWindowState) (now window : ℚ) (limit : ℤ) (ttl : ℚ) :
    SlidingWindowResult :=
  let minScore := now - window
  let log1 := s.log.filter (fun e => decide (e.score < 0 ∨ minScore < e.score))
  let count : ℤ := log1.length
  if count ≥ limit then
    { allowed := false, state := { log := log1, seq := s.seq }, writtenTTL := none }
  else
    let seq := s.seq.getD 0 + 1
    let isMem := fun (e : SlidingWindowEntry) => e.memberNow == now && e.memberSeq == seq
    let log2 :=
      if log1.any isMem then
        log1.map (fun e => if isMem e then { score := now, memberNow := now, memberSeq := seq } else e)
      else
        log1 ++ [{ score := now, memberNow := now, memberSeq := seq }]
    { allowed := true, state := { log := log2, seq := some seq }, writtenTTL := some ttl }

/- ### Theorems for claim C1 -/

/-- Shared helper: the if-form of clamping a quantity below at zero equals max. -/
theorem clampZero_eq_max (d : ℚ) : (if d < 0 then (0 : ℚ) else d) = max 0 d := by
  rcases lt_or_le d 0 with h | h
  · rw [if_pos h, max_eq_left h.le]
  · rw [if_neg (not_lt.mpr h), max_eq_right h]

/-- Shared helper: the if-form of clamping a quantity above at c equals min. -/
theorem clampCap_eq_min (c t : ℚ) : (if t > c then c else t) = min c t := by
  rcases lt_or_le c t with h | h
  · rw [if_pos h, min_eq_left h.le]
  · rw [if_neg (not_lt.mpr h), min_eq_right h]

/-- C1: the token-bucket admission step invoked by
TokenBucketLimiter.AllowN computes exactly the arithmetic stated in the
specification: tokens defaults to capacity and lastTs to now when the
keys are absent; delta = max 0 (now - lastTs); refill = delta * rate /
1000; tokens = min capacity (tokens + refill); it returns 0 and writes
nothing when tokens < request, and otherwise subtracts the request,
writes both keys with the TTL, and returns 1. -/
theorem tokenBucketScript_eq_spec (s : TokenBucketState) (now rate capacity req ttl : ℚ) :
    tokenBucketScript s now rate capacity req ttl =
      tokenBucketStepFromSpec s now rate capacity req ttl := by
  simp only [tokenBucketScript, tokenBucketStepFromSpec, clampZero_eq_max, clampCap_eq_min]

/- ### Unfolding helpers shared by several claims -/

/-- Shared helper: closed form of the token-bucket script with the clamps
written as max and min. -/
theorem tokenBucketScript_unfold (s : TokenBucketState) (now rate capacity req ttl : ℚ) :
    tokenBucketScript s now rate capacity req ttl =
      if min capacity (s.tokens.getD capacity + max 0 (now - s.ts.getD now) * rate / 1000) < req
      then { allowed := false, state := s, writtenTTL := none }
      else
        { allowed := true
          state :=
            { tokens := some (min capacity (s.tokens.getD capacity + max 0 (now - s.ts.getD now) * rate / 1000) - req)
              ts := some now }
          writtenTTL := some ttl } := by
  simp only [tokenBucketScript, clampZero_eq_max, clampCap_eq_min]

/-- Shared helper: closed form of the leaky-bucket script with the clamps
written as max. -/
theorem leakyBucketScript_unfold (s : LeakyBucketState) (now leakRate capacity req ttl : ℚ) :
    leakyBucketScript s now leakRate capacity req ttl =
      if capacity < max 0 (s.bucket.getD 0 - max 0 (now - s.ts.getD now) * leakRate / 1000) + req
      then { allowed := false, state := s, writtenTTL := none }
      else
        { allowed := true
          state :=
            { bucket := some (max 0 (s.bucket.getD 0 - max 0 (now - s.ts.getD now) * leakRate / 1000) + req)
              ts := some now }
          writtenTTL := some ttl } := by
  simp only [leakyBucketScript, clampZero_eq_max]

/-- Shared helper: closed form of the legacy token-bucket script on a
well-formed state holding both cells. -/
theorem legacyTokenBucketScript_unfold (tok0 ts0 rate capacity now request ttl : ℚ) :
    legacyTokenBucketScript ⟨some tok0, some ts0⟩ rate capacity now request ttl =
      some (
        if request ≤ (if 0 < now - ts0 then min capacity (tok0 + (now - ts0) * rate / 1000) else tok0)
        then
          { allowed := true
            state :=
              { tokens := some ((if 0 < now - ts0 then min capacity (tok0 + (now - ts0) * rate / 1000) else tok0) - request)
                ts := some (if 0 < now - ts0 then now else ts0) }
            writtenTTL := some ttl }
        else
          { allowed := false
            state :=
              { tokens := some (if 0 < now - ts0 then min capacity (tok0 + (now - ts0) * rate / 1000) else tok0)
                ts := some (if 0 < now - ts0 then now else ts0) }
            writtenTTL := some ttl }) := by
  simp only [legacyTokenBucketScript, ge_iff_le, gt_iff_lt]

/- ### Theorems for claim C4 -/

/-- C4 counterexample: the main token-bucket script does not keep the
stored ts monotonic. With stored ts = 2000 and a caller-supplied
now = 1000 (clock regression), the request is admitted and the stored ts
moves backwards to 1000. -/
theorem tokenBucket_ts_monotonic_counterexample :
    (tokenBucketScript ⟨some 5, some 2000⟩ 1000 1 10 1 500).allowed = true ∧
    (tokenBucketScript ⟨some 5, some 2000⟩ 1000 1 10 1 500).state.ts = some 1000 ∧
    (1000 : ℚ) < 2000 := by
  norm_num [tokenBucketScript_unfold, max_def, min_def]

/-- C4 amended: denials never change the stored ts, and a clock
regression is clamped to zero delta, so an admitted request with
now ≤ stored ts gains no refill; the legacy script keeps the stored ts
monotonic non-decreasing on well-formed states; but the main script sets
ts to the caller-supplied now on every admission, so an admitted request
under clock regression moves the stored ts backwards. -/
theorem tokenBucket_ts_update :
    (∀ (s : TokenBucketState) (now rate capacity req ttl : ℚ),
      (tokenBucketScript s now rate capacity req ttl).allowed = false →
      (tokenBucketScript s now rate capacity req ttl).state.ts = s.ts)
  ∧ (∀ (s : TokenBucketState) (now rate capacity req ttl : ℚ),
      (tokenBucketScript s now rate capacity req ttl).allowed = true →
      (tokenBucketScript s now rate capacity req ttl).state.ts = some now)
  ∧ (∀ (tok : Option ℚ) (t now rate capacity req ttl : ℚ),
      now ≤ t →
      (tokenBucketScript ⟨tok, some t⟩ now rate capacity req ttl).allowed = true →
      (tokenBucketScript ⟨tok, some t⟩ now rate capacity req ttl).state.tokens =
        some (min capacity (tok.getD capacity) - req))
  ∧ (∀ (tok0 t rate capacity now req ttl : ℚ) (r : TokenBucketResult) (t' : ℚ),
      legacyTokenBucketScript ⟨some tok0, some t⟩ rate capacity now req ttl = some r →
      r.state.ts = some t' → t ≤ t') := by
  refine ⟨?_, ?_, ?_, ?_⟩
  · intro s now rate capacity req ttl h
    rw [tokenBucketScript_unfold] at h ⊢
    split at h
    · split
      · rfl
      · simp_all
    · simp at h
  · intro s now rate capacity req ttl h
    rw [tokenBucketScript_unfold] at h ⊢
    split at h
    · simp at h
    · split
      · simp_all
      · rfl
  · intro tok t now rate capacity req ttl hreg h
    have hz : max 0 (now - t) = 0 := max_eq_left (by linarith)
    rw [tokenBucketScript_unfold] at h ⊢
    simp only [Option.getD_some, hz, zero_mul, zero_div, add_zero] at h ⊢
    split at h
    · simp at h
    · split
      · simp_all
      · rfl
  · intro tok0 t rate capacity now req ttl r t' hrun hts
    rw [legacyTokenBucketScript_unfold] at hrun
    rw [Option.some.injEq] at hrun
    subst hrun
    split at hts <;> split at hts <;>
      simp only [Option.some.injEq] at hts <;> subst hts <;> linarith

/-- C4 witness: the amended theorem evaluated at concrete inputs. -/
theorem tokenBucket_ts_update_witness :
    (tokenBucketScript ⟨some 0, some 50⟩ 60 1 10 5 99).state.ts = some 50 ∧
    (tokenBucketScript ⟨some 7, some 50⟩ 60 1 10 5 99).state.ts = some 60 ∧
    (tokenBucketScript ⟨some 7, some 80⟩ 60 1 10 5 99).state.tokens = some (min 10 7 - 5) ∧
    ((3000 : ℚ) ≤ 3000) := by
  refine ⟨?_, ?_, ?_, ?_⟩
  · exact tokenBucket_ts_update.1 ⟨some 0, some 50⟩ 60 1 10 5 99
      (by norm_num [tokenBucketScript_unfold, max_def, min_def])
  · exact tokenBucket_ts_update.2.1 ⟨some 7, some 50⟩ 60 1 10 5 99
      (by norm_num [tokenBucketScript_unfold, max_def, min_def])
  · exact tokenBucket_ts_update.2.2.1 (some 7) 80 60 1 10 5 99 (by norm_num)
      (by norm_num [tokenBucketScript_unfold, max_def, min_def])
  · exact tokenBucket_ts_update.2.2.2 0 3000 1 10 3000 1 99
      { allowed := false, state := { tokens := some 0, ts := some 3000 }, writtenTTL := some 99 }
      3000 (by norm_num [legacyTokenBucketScript_unfold]) rfl

/- ### Theorems for claim C2 -/

/-- C2 counterexample: a denied admission can mutate state keys. The
legacy script denies the request (returns 0) yet rewrites the tokens and
ts keys with refilled values, and a denied sliding-window invocation has
already purged an out-of-window entry from the log. -/
theorem deniedAdmission_counterexample :
    (legacyTokenBucketScript ⟨some 0, some 1000⟩ 1 10 2000 5 9999 =
      some { allowed := false, state := { tokens := some 1, ts := some 2000 },
             writtenTTL := some 9999 }) ∧
    ({ tokens := some 1, ts := some 2000 } ≠ ({ tokens := some 0, ts := some 1000 } : TokenBucketState)) ∧
    (slidingWindowScript ⟨[⟨5, 5, 1⟩, ⟨100, 100, 2⟩], some 2⟩ 100 50 1 7 =
      { allowed := false, state := { log := [⟨100, 100, 2⟩], seq := some 2 },
        writtenTTL := none }) ∧
    (([⟨100, 100, 2⟩] : List SlidingWindowEntry) ≠ [⟨5, 5, 1⟩, ⟨100, 100, 2⟩]) := by
  refine ⟨?_, ?_, ?_, ?_⟩
  · norm_num [legacyTokenBucketScript_unfold, min_def]
  · norm_num [TokenBucketState.mk.injEq]
  · norm_num [slidingWindowScript, List.filter]
  · norm_num

/-- C2 amended: a denied invocation of the part_007 token-bucket or
leaky-bucket script leaves the state keys exactly as they were and writes
no TTL; a denied sliding-window invocation leaves the seq key unchanged,
adds nothing and writes no TTL, but persists the purge of entries with
score in [0, now - window], so the log may shrink; and the legacy
ShardedRedisTokenBucket script writes both keys (with TTL refresh) on
every invocation, denials included. -/
theorem deniedAdmission_mutation :
    (∀ (s : TokenBucketState) (now rate capacity req ttl : ℚ),
      (tokenBucketScript s now rate capacity req ttl).allowed = false →
      (tokenBucketScript s now rate capacity req ttl).state = s ∧
      (tokenBucketScript s now rate capacity req ttl).writtenTTL = none)
  ∧ (∀ (s : LeakyBucketState) (now leakRate capacity req ttl : ℚ),
      (leakyBucketScript s now leakRate capacity req ttl).allowed = false →
      (leakyBucketScript s now leakRate capacity req ttl).state = s ∧
      (leakyBucketScript s now leakRate capacity req ttl).writtenTTL = none)
  ∧ (∀ (s : SlidingWindowState) (now window : ℚ) (limit : ℤ) (ttl : ℚ),
      (slidingWindowScript s now window limit ttl).allowed = false →
      (slidingWindowScript s now window limit ttl).state.seq = s.seq ∧
      (slidingWindowScript s now window limit ttl).state.log =
        s.log.filter (fun e => decide (e.score < 0 ∨ now - window < e.score)) ∧
      (slidingWindowScript s now window limit ttl).state.log.Sublist s.log ∧
      (slidingWindowScript s now window limit ttl).writtenTTL = none)
  ∧ (∀ (tok0 ts0 rate capacity now request ttl : ℚ) (r : TokenBucketResult),
      legacyTokenBucketScript ⟨some tok0, some ts0⟩ rate capacity now request ttl = some r →
      r.writtenTTL = some ttl) := by
  refine ⟨?_, ?_, ?_, ?_⟩
  · intro s now rate capacity req ttl h
    rw [tokenBucketScript_unfold] at h ⊢
    split at h
    · split
      · exact ⟨rfl, rfl⟩
      · simp_all
    · simp at h
  · intro s now leakRate capacity req ttl h
    rw [leakyBucketScript_unfold] at h ⊢
    split at h
    · split
      · exact ⟨rfl, rfl⟩
      · simp_all
    · simp at h
  · intro s now window limit ttl h
    simp only [slidingWindowScript] at h ⊢
    split at h
    · split
      · exact ⟨rfl, rfl, List.filter_sublist s.log, rfl⟩
      · simp_all
    · simp at h
  · intro tok0 ts0 rate capacity now request ttl r hrun
    rw [legacyTokenBucketScript_unfold, Option.some.injEq] at hrun
    subst hrun
    split <;> split <;> rfl

/-- C2 witness: the amended theorem evaluated at concrete denied
invocations of each script. -/
theorem deniedAdmission_mutation_witness :
    (tokenBucketScript ⟨some 0, some 0⟩ 0 1 10 5 9).state = { tokens := some 0, ts := some 0 } ∧
    (leakyBucketScript ⟨some 10, some 0⟩ 0 1 10 5 9).writtenTTL = none ∧
    (slidingWindowScript ⟨[⟨5, 5, 1⟩, ⟨100, 100, 2⟩], some 2⟩ 100 50 1 7).state.seq = some 2 ∧
    ({ allowed := false, state := { tokens := some 1, ts := some 2000 },
       writtenTTL := some 9999 } : TokenBucketResult).writtenTTL = some 9999 := by
  refine ⟨?_, ?_, ?_, ?_⟩
  · exact (deniedAdmission_mutation.1 ⟨some 0, some 0⟩ 0 1 10 5 9
      (by norm_num [tokenBucketScript_unfold, max_def, min_def])).1
  · exact (deniedAdmission_mutation.2.1 ⟨some 10, some 0⟩ 0 1 10 5 9
      (by norm_num [leakyBucketScript_unfold, max_def])).2
  · exact (deniedAdmission_mutation.2.2.1 ⟨[⟨5, 5, 1⟩, ⟨100, 100, 2⟩], some 2⟩ 100 50 1 7
      (by norm_num [slidingWindowScript, List.filter])).1
  · exact deniedAdmission_mutation.2.2.2 0 1000 1 10 2000 5 9999
      { allowed := false, state := { tokens := some 1, ts := some 2000 }, writtenTTL := some 9999 }
      (by norm_num [legacyTokenBucketScript_unfold, min_def])

/- ### Sequences of script invocations at one key (claim C3) -/

/-- Arguments of one AllowN-driven token-bucket script invocation that can
vary between calls at the same key. -/
structure TokenBucketCall where
  now : ℚ
  req : ℚ
  ttl : ℚ
deriving Repr

/-- The store state at one token-bucket key after a sequence of script
invocations with the fixed per-limiter rate and capacity. -/
def tokenBucketRun (rate capacity : ℚ) (s : TokenBucketState) (cs : List TokenBucketCall) :
    TokenBucketState :=
  cs.foldl (fun st c => (tokenBucketScript st c.now rate capacity c.req c.ttl).state) s

/-- Arguments of one leaky-bucket script invocation that can vary between
calls at the same key. -/
structure LeakyBucketCall where
  now : ℚ
  req : ℚ
  ttl : ℚ
deriving Repr

/-- The store state at one leaky-bucket key after a sequence of script
invocations. -/
def leakyBucketRun (leakRate capacity : ℚ) (s : LeakyBucketState) (cs : List LeakyBucketCall) :
    LeakyBucketState :=
  cs.foldl (fun st c => (leakyBucketScript st c.now leakRate capacity c.req c.ttl).state) s

/-- Arguments of one sliding-window script invocation that can vary
between calls at the same key. -/
structure SlidingWindowCall where
  now : ℚ
  window : ℚ
  ttl : ℚ
deriving Repr

/-- The store state at one sliding-window key after a sequence of script
invocations with the fixed per-limiter limit. -/
def slidingWindowRun (limit : ℤ) (s : SlidingWindowState) (cs : List SlidingWindowCall) :
    SlidingWindowState :=
  cs.foldl (fun st c => (slidingWindowScript st c.now c.window limit c.ttl).state) s

/-- Shared helper: one token-bucket invocation preserves the bounds
0 ≤ tokens ≤ capacity of the stored tokens cell. -/
theorem tokenBucketScript_tokens_bounds (s : TokenBucketState) (now rate capacity req ttl : ℚ)
    (hreq : 0 ≤ req) (hs : ∀ v, s.tokens = some v → 0 ≤ v ∧ v ≤ capacity) :
    ∀ v, (tokenBucketScript s now rate capacity req ttl).state.tokens = some v →
      0 ≤ v ∧ v ≤ capacity := by
  rw [tokenBucketScript_unfold]
  split
  · exact hs
  · intro v hv
    rename_i h
    simp only [Option.some.injEq] at hv
    subst hv
    have h0 := not_lt.mp h
    have h1 := min_le_left capacity
      (s.tokens.getD capacity + max 0 (now - s.ts.getD now) * rate / 1000)
    exact ⟨by linarith, by linarith⟩

/-- Shared helper: one leaky-bucket invocation preserves the bounds
0 ≤ level ≤ capacity of the stored level cell. -/
theorem leakyBucketScript_level_bounds (s : LeakyBucketState) (now leakRate capacity req ttl : ℚ)
    (hreq : 0 ≤ req) (hs : ∀ v, s.bucket = some v → 0 ≤ v ∧ v ≤ capacity) :
    ∀ v, (leakyBucketScript s now leakRate capacity req ttl).state.bucket = some v →
      0 ≤ v ∧ v ≤ capacity := by
  rw [leakyBucketScript_unfold]
  split
  · exact hs
  · intro v hv
    rename_i h
    simp only [Option.some.injEq] at hv
    subst hv
    have h0 := not_lt.mp h
    have h1 := le_max_left (0 : ℚ)
      (s.bucket.getD 0 - max 0 (now - s.ts.getD now) * leakRate / 1000)
    exact ⟨by linarith, by linarith⟩

/-- Shared helper: one sliding-window invocation preserves the bound
log cardinality ≤ limit. -/
theorem slidingWindowScript_card_bound (s : SlidingWindowState) (now window : ℚ) (limit : ℤ)
    (ttl : ℚ) (hs : (s.log.length : ℤ) ≤ limit) :
    ((slidingWindowScript s now window limit ttl).state.log.length : ℤ) ≤ limit := by
  simp only [slidingWindowScript]
  split
  · rename_i h
    calc ((s.log.filter (fun e => decide (e.score < 0 ∨ now - window < e.score))).length : ℤ)
        ≤ (s.log.length : ℤ) := by exact_mod_cast List.length_filter_le _ _
      _ ≤ limit := hs
  · rename_i h
    have hlt : ((s.log.filter (fun e => decide (e.score < 0 ∨ now - window < e.score))).length : ℤ)
        < limit := not_le.mp h
    split
    · rename_i hmem
      simp only [List.length_map]
      exact hlt.le
    · rename_i hmem
      simp only [List.length_append, List.length_singleton]
      push_cast
      omega

/-- Shared helper: the token-bucket bounds hold after any sequence of
invocations with request sizes at least 1. -/
theorem tokenBucketRun_bounds (rate capacity : ℚ) (cs : List TokenBucketCall)
    (s : TokenBucketState) (hreq : ∀ c ∈ cs, 1 ≤ c.req)
    (hs : ∀ v, s.tokens = some v → 0 ≤ v ∧ v ≤ capacity) :
    ∀ v, (tokenBucketRun rate capacity s cs).tokens = some v → 0 ≤ v ∧ v ≤ capacity := by
  induction cs generalizing s with
  | nil => exact hs
  | cons c cs ih =>
    simp only [tokenBucketRun, List.foldl_cons] at *
    exact ih _ (fun c' hc' => hreq c' (List.mem_cons_of_mem _ hc'))
      (tokenBucketScript_tokens_bounds s c.now rate capacity c.req c.ttl
        (le_trans zero_le_one (hreq c (List.mem_cons_self _ _))) hs)

/-- Shared helper: the leaky-bucket bounds hold after any sequence of
invocations with request sizes at least 1. -/
theorem leakyBucketRun_bounds (leakRate capacity : ℚ) (cs : List LeakyBucketCall)
    (s : LeakyBucketState) (hreq : ∀ c ∈ cs, 1 ≤ c.req)
    (hs : ∀ v, s.bucket = some v → 0 ≤ v ∧ v ≤ capacity) :
    ∀ v, (leakyBucketRun leakRate capacity s cs).bucket = some v → 0 ≤ v ∧ v ≤ capacity := by
  induction cs generalizing s with
  | nil => exact hs
  | cons c cs ih =>
    simp only [leakyBucketRun, List.foldl_cons] at *
    exact ih _ (fun c' hc' => hreq c' (List.mem_cons_of_mem _ hc'))
      (leakyBucketScript_level_bounds s c.now leakRate capacity c.req c.ttl
        (le_trans zero_le_one (hreq c (List.mem_cons_self _ _))) hs)

/-- Shared helper: the sliding-window cardinality bound holds after any
sequence of invocations. -/
theorem slidingWindowRun_bounds (limit : ℤ) (cs : List SlidingWindowCall)
    (s : SlidingWindowState) (hs : (s.log.length : ℤ) ≤ limit) :
    ((slidingWindowRun limit s cs).log.length : ℤ) ≤ limit := by
  induction cs generalizing s with
  | nil => exact hs
  | cons c cs ih =>
    simp only [slidingWindowRun, List.foldl_cons] at *
    exact ih _ (slidingWindowScript_card_bound s c.now c.window limit c.ttl hs)

/-- C3: starting from the absent initial state, for every sequence of
script invocations at one key with request sizes n ≥ 1, the stored
counter stays within bounds after every return: token-bucket tokens in
[0, capacity], leaky-bucket level in [0, capacity], and the sliding
window log cardinality (hence also the cardinality of the entries inside
any window) at most limit. -/
theorem storeCounter_bounds :
    (∀ (rate capacity : ℚ) (cs : List TokenBucketCall), (∀ c ∈ cs, 1 ≤ c.req) →
      ∀ v, (tokenBucketRun rate capacity ⟨none, none⟩ cs).tokens = some v →
        0 ≤ v ∧ v ≤ capacity)
  ∧ (∀ (leakRate capacity : ℚ) (cs : List LeakyBucketCall), (∀ c ∈ cs, 1 ≤ c.req) →
      ∀ v, (leakyBucketRun leakRate capacity ⟨none, none⟩ cs).bucket = some v →
        0 ≤ v ∧ v ≤ capacity)
  ∧ (∀ (limit : ℤ) (cs : List SlidingWindowCall), 0 ≤ limit →
      ((slidingWindowRun limit ⟨[], none⟩ cs).log.length : ℤ) ≤ limit ∧
      ∀ (t w : ℚ), (((slidingWindowRun limit ⟨[], none⟩ cs).log.filter
          (fun e => decide (t - w < e.score))).length : ℤ) ≤ limit) := by
  refine ⟨?_, ?_, ?_⟩
  · intro rate capacity cs hreq
    exact tokenBucketRun_bounds rate capacity cs ⟨none, none⟩ hreq (by intro v hv; cases hv)
  · intro leakRate capacity cs hreq
    exact leakyBucketRun_bounds leakRate capacity cs ⟨none, none⟩ hreq (by intro v hv; cases hv)
  · intro limit cs hlim
    have hlen := slidingWindowRun_bounds limit cs ⟨[], none⟩ (by simpa using hlim)
    refine ⟨hlen, ?_⟩
    intro t w
    calc (((slidingWindowRun limit ⟨[], none⟩ cs).log.filter
            (fun e => decide (t - w < e.score))).length : ℤ)
        ≤ ((slidingWindowRun limit ⟨[], none⟩ cs).log.length : ℤ) := by
          exact_mod_cast List.length_filter_le _ _
      _ ≤ limit := hlen

/-- C3 witness: the bounds theorem evaluated on concrete one-call
sequences. -/
theorem storeCounter_bounds_witness :
    ((0 : ℚ) ≤ 9 ∧ (9 : ℚ) ≤ 10) ∧ ((0 : ℚ) ≤ 1 ∧ (1 : ℚ) ≤ 10) ∧
    (((slidingWindowRun 3 ⟨[], none⟩ [⟨0, 10, 9⟩]).log.length : ℤ) ≤ 3) := by
  refine ⟨?_, ?_, ?_⟩
  · refine storeCounter_bounds.1 1 10 [⟨0, 1, 9⟩] ?_ 9 ?_
    · intro c hc
      rw [List.mem_singleton] at hc
      subst hc
      norm_num
    · simp only [tokenBucketRun, List.foldl_cons, List.foldl_nil]
      rw [tokenBucketScript_unfold]
      norm_num [max_def, min_def]
  · refine storeCounter_bounds.2.1 1 10 [⟨0, 1, 9⟩] ?_ 1 ?_
    · intro c hc
      rw [List.mem_singleton] at hc
      subst hc
      norm_num
    · simp only [leakyBucketRun, List.foldl_cons, List.foldl_nil]
      rw [leakyBucketScript_unfold]
      norm_num [max_def]
  · exact (storeCounter_bounds.2.2 3 [⟨0, 10, 9⟩] (by norm_num)).1

/- ### Blocking Wait loops (claim C5) -/

/-- Outcome of one modelled Wait call. -/
inductive WaitResult
  | success
  | allowErr (e : ℕ)
  | limited
  | timedOut
  | ctxCancelled
  | pending
deriving DecidableEq, Repr

/-- Observable events of one iteration of a Wait loop: the outcome of the
Allow call (an error code, or the verdict), the time read after a denial,
and whether the caller context was cancelled during the sleep. -/
structure WaitStep where
  allow : Except ℕ Bool
  now : ℤ
  cancelled : Bool
deriving Repr

/-- The shared Wait loop body of TokenBucketLimiter.Wait and
SingleSlidingWindowLimiter.Wait: return the Allow error, nil on
admission, ErrLimiter when the normalized maxWait is zero, ErrTimeout
once now is past the deadline, the context cancellation cause if the
sleep is interrupted, and otherwise loop. -/
def singleLimiterWaitLoop (maxWait deadline : ℤ) : List WaitStep → WaitResult
  | [] => .pending
  | step :: rest =>
    match step.allow with
    | .error e => .allowErr e
    | .ok true => .success
    | .ok false =>
      if maxWait = 0 then .limited
      else if deadline < step.now then .timedOut
      else if step.cancelled then .ctxCancelled
      else singleLimiterWaitLoop maxWait deadline rest

/-- TokenBucketLimiter.Wait: maxWait is clamped at zero and the deadline
is the start time plus the clamped maxWait. -/
def tokenBucketWait (t0 maxWait : ℤ) (trace : List WaitStep) : WaitResult :=
  singleLimiterWaitLoop (max maxWait 0) (t0 + max maxWait 0) trace

/-- SingleSlidingWindowLimiter.Wait: same loop as the token bucket. -/
def slidingWindowWait (t0 maxWait : ℤ) (trace : List WaitStep) : WaitResult :=
  singleLimiterWaitLoop (max maxWait 0) (t0 + max maxWait 0) trace

/-- LeakyBucketLimiter.Wait loop body: identical to the shared loop
except that the branch returning ErrLimiter when maxWait is zero is
missing from the source. -/
def leakyBucketWaitLoop (deadline : ℤ) : List WaitStep → WaitResult
  | [] => .pending
  | step :: rest =>
    match step.allow with
    | .error e => .allowErr e
    | .ok true => .success
    | .ok false =>
      if deadline < step.now then .timedOut
      else if step.cancelled then .ctxCancelled
      else leakyBucketWaitLoop deadline rest

/-- LeakyBucketLimiter.Wait: maxWait below zero is normalized to zero. -/
def leakyBucketWait (t0 maxWait : ℤ) (trace : List WaitStep) : WaitResult :=
  leakyBucketWaitLoop (t0 + max maxWait 0) trace

/- ### Theorems for claim C5 -/

/-- C5 counterexample: LeakyBucketLimiter.Wait denied with maxWait = 0
does not return ErrLimiter: once the clock has passed the (immediate)
deadline it returns ErrTimeout. -/
theorem waitErrLimiter_counterexample :
    leakyBucketWait 0 0 [⟨.ok false, 1, false⟩] = .timedOut ∧
    WaitResult.timedOut ≠ WaitResult.limited := by
  exact ⟨by decide, by decide⟩

/-- C5 amended: for the token-bucket and sliding-window Wait loops the
claim holds in full: nil on the first admitted result, the error of the
first erring Allow, ErrLimiter on denial when maxWait (clamped at zero)
is zero before any sleep, ErrTimeout on denial past the deadline
t0 + max maxWait 0, the context cancellation cause when cancelled during
a sleep, and the loop re-invokes Allow only after a (false, nil) result.
The leaky-bucket Wait satisfies the same clauses except the ErrLimiter
one: it can never return ErrLimiter, and a denial observed past the
deadline returns ErrTimeout regardless of maxWait. -/
theorem singleLimiterWait_behavior :
    (∀ (t0 mw n : ℤ) (c : Bool) (rest : List WaitStep),
      tokenBucketWait t0 mw (⟨.ok true, n, c⟩ :: rest) = .success)
  ∧ (∀ (t0 mw : ℤ) (e : ℕ) (n : ℤ) (c : Bool) (rest : List WaitStep),
      tokenBucketWait t0 mw (⟨.error e, n, c⟩ :: rest) = .allowErr e)
  ∧ (∀ (t0 mw n : ℤ) (c : Bool) (rest : List WaitStep), mw ≤ 0 →
      tokenBucketWait t0 mw (⟨.ok false, n, c⟩ :: rest) = .limited)
  ∧ (∀ (t0 mw n : ℤ) (c : Bool) (rest : List WaitStep), 0 < mw → t0 + mw < n →
      tokenBucketWait t0 mw (⟨.ok false, n, c⟩ :: rest) = .timedOut)
  ∧ (∀ (t0 mw n : ℤ) (rest : List WaitStep), 0 < mw → n ≤ t0 + mw →
      tokenBucketWait t0 mw (⟨.ok false, n, true⟩ :: rest) = .ctxCancelled)
  ∧ (∀ (t0 mw n : ℤ) (rest : List WaitStep), 0 < mw → n ≤ t0 + mw →
      tokenBucketWait t0 mw (⟨.ok false, n, false⟩ :: rest) = tokenBucketWait t0 mw rest)
  ∧ (∀ (t0 mw : ℤ) (trace : List WaitStep),
      slidingWindowWait t0 mw trace = tokenBucketWait t0 mw trace)
  ∧ (∀ (t0 mw : ℤ) (trace : List WaitStep),
      leakyBucketWait t0 mw trace ≠ .limited)
  ∧ (∀ (t0 mw n : ℤ) (c : Bool) (rest : List WaitStep), t0 + max mw 0 < n →
      leakyBucketWait t0 mw (⟨.ok false, n, c⟩ :: rest) = .timedOut)
  ∧ (∀ (t0 mw n : ℤ) (c : Bool) (rest : List WaitStep),
      leakyBucketWait t0 mw (⟨.ok true, n, c⟩ :: rest) = .success)
  ∧ (∀ (t0 mw : ℤ) (e : ℕ) (n : ℤ) (c : Bool) (rest : List WaitStep),
      leakyBucketWait t0 mw (⟨.error e, n, c⟩ :: rest) = .allowErr e)
  ∧ (∀ (t0 mw n : ℤ) (rest : List WaitStep), n ≤ t0 + max mw 0 →
      leakyBucketWait t0 mw (⟨.ok false, n, true⟩ :: rest) = .ctxCancelled) := by
  refine ⟨?_, ?_, ?_, ?_, ?_, ?_, ?_, ?_, ?_, ?_, ?_, ?_⟩
  · intro t0 mw n c rest
    rfl
  · intro t0 mw e n c rest
    rfl
  · intro t0 mw n c rest h
    simp only [tokenBucketWait, singleLimiterWaitLoop, max_eq_right h]
    rfl
  · intro t0 mw n c rest h1 h2
    simp only [tokenBucketWait, singleLimiterWaitLoop, max_eq_left h1.le]
    rw [if_neg (by omega : ¬ mw = 0), if_pos h2]
  · intro t0 mw n rest h1 h2
    simp only [tokenBucketWait, singleLimiterWaitLoop, max_eq_left h1.le]
    rw [if_neg (by omega : ¬ mw = 0), if_neg (not_lt.mpr h2)]
    rfl
  · intro t0 mw n rest h1 h2
    simp only [tokenBucketWait, singleLimiterWaitLoop, max_eq_left h1.le]
    rw [if_neg (by omega : ¬ mw = 0), if_neg (not_lt.mpr h2)]
    rfl
  · intro t0 mw trace
    rfl
  · intro t0 mw trace
    induction trace with
    | nil => exact fun h => WaitResult.noConfusion h
    | cons step rest ih =>
      rcases step with ⟨allow, n, c⟩
      rcases allow with e | b
      · exact fun h => WaitResult.noConfusion h
      · cases b
        · simp only [leakyBucketWait, leakyBucketWaitLoop]
          split
          · exact fun h => WaitResult.noConfusion h
          · split
            · exact fun h => WaitResult.noConfusion h
            · exact ih
        · exact fun h => WaitResult.noConfusion h
  · intro t0 mw n c rest h
    simp only [leakyBucketWait, leakyBucketWaitLoop]
    rw [if_pos h]
  · intro t0 mw n c rest
    rfl
  · intro t0 mw e n c rest
    rfl
  · intro t0 mw n rest h
    simp only [leakyBucketWait, leakyBucketWaitLoop]
    rw [if_neg (not_lt.mpr h)]
    rfl

/-- C5 witness: the amended Wait theorem evaluated at concrete traces. -/
theorem singleLimiterWait_behavior_witness :
    tokenBucketWait 0 0 [⟨.ok false, 1, false⟩] = .limited ∧
    tokenBucketWait 0 5 [⟨.ok false, 9, false⟩] = .timedOut ∧
    tokenBucketWait 0 5 [⟨.ok false, 3, true⟩] = .ctxCancelled ∧
    leakyBucketWait 0 0 [⟨.ok false, 1, false⟩] = .timedOut ∧
    leakyBucketWait 0 5 [⟨.ok false, 3, true⟩] = .ctxCancelled := by
  refine ⟨?_, ?_, ?_, ?_, ?_⟩
  · exact singleLimiterWait_behavior.2.2.1 0 0 1 false [] (by norm_num)
  · exact singleLimiterWait_behavior.2.2.2.1 0 5 9 false [] (by norm_num) (by norm_num)
  · exact singleLimiterWait_behavior.2.2.2.2.1 0 5 3 [] (by norm_num) (by norm_num)
  · exact singleLimiterWait_behavior.2.2.2.2.2.2.2.2.1 0 0 1 false [] (by simp)
  · exact singleLimiterWait_behavior.2.2.2.2.2.2.2.2.2.2.2 0 5 3 [] (by simp)

/- ### Limiter configurations and State reconstruction (claims C6, C8, C9, C10) -/

/-- Configuration of a single token-bucket limiter (Go struct
TokenBucketLimiter; the field pfx models the Go field named after the
default "tbucket" key segment). TTL counts nanoseconds as Go duration. -/
structure TokenBucketLimiter where
  Key : String
  pfx : String
  Rate : ℚ
  Capacity : ℚ
  TTL : ℤ
deriving DecidableEq, Repr

/-- Configuration of a single sliding-window limiter (Go struct
SingleSlidingWindowLimiter). Window and TTL count nanoseconds. -/
structure SingleSlidingWindowLimiter where
  Key : String
  pfx : String
  Window : ℤ
  Limit : ℤ
  TTL : ℤ
deriving DecidableEq, Repr

/-- Configuration of a single leaky-bucket limiter (Go struct
LeakyBucketLimiter). TTL counts nanoseconds. -/
structure LeakyBucketLimiter where
  Key : String
  pfx : String
  LeakRate : ℚ
  Capacity : ℚ
  TTL : ℤ
deriving DecidableEq, Repr

/-- The LimiterState snapshot record (timestamps in milliseconds). -/
structure LimiterState where
  Level : ℚ
  Remaining : ℚ
  Capacity : ℚ
  Rate : ℚ
  LastUpdated : ℚ
  NextAvailableTime : ℚ
  type : String
  Key : String
deriving DecidableEq, Repr

/-- The error a read of an absent key reports (redis.Nil). -/
inductive GetErr
  | redisNil
deriving DecidableEq, Repr

/-- TokenBucketLimiter.State translated from the Go source: only GET
commands are issued, so the store is returned unchanged; an absent tokens
key yields a synthetic full bucket; an absent ts key (with tokens
present) propagates redis.Nil; otherwise the refill is simulated locally
with the same clamps as the script, the level floored at zero, and
NextAvailableTime filled from now and the missing token fraction. -/
def TokenBucketLimiter.State (tb : TokenBucketLimiter) (s : TokenBucketState) (now : ℚ) :
    TokenBucketState × Except GetErr LimiterState :=
  match s.tokens with
  | none =>
    (s, .ok { Level := tb.Capacity, Remaining := tb.Capacity, Capacity := tb.Capacity
              Rate := tb.Rate, LastUpdated := now, NextAvailableTime := now
              type := "token_bucket", Key := tb.Key })
  | some tokens0 =>
    match s.ts with
    | none => (s, .error .redisNil)
    | some lastTs =>
      let deltaMs0 := now - lastTs
      let deltaMs := if deltaMs0 < 0 then 0 else deltaMs0
      let refill := deltaMs * tb.Rate / 1000
      let tokens1 := tokens0 + refill
      let tokens2 := if tokens1 > tb.Capacity then tb.Capacity else tokens1
      let level := if tokens2 < 0 then 0 else tokens2
      let next :=
        if level ≥ 1 then now
        else
          let need := 1 - level
          let waitSec0 := need / tb.Rate
          let waitSec := if waitSec0 < 0 then 0 else waitSec0
          now + waitSec * 1000
      (s, .ok { Level := level, Remaining := level, Capacity := tb.Capacity, Rate := tb.Rate
                LastUpdated := lastTs, NextAvailableTime := next
                type := "token_bucket", Key := tb.Key })

/-- C6: TokenBucketLimiter.State never mutates the store (it only reads)
and: an absent tokens key yields the synthetic full-bucket state with no
error; a present tokens key with an absent ts key propagates the
key-missing error; otherwise it simulates the refill arithmetic of the
script (delta clamped at zero, tokens clamped at capacity, level floored
at zero) and sets NextAvailableTime to now when level ≥ 1 and to
now + (1 - level)/rate seconds otherwise. -/
theorem tokenBucketState_behavior (tb : TokenBucketLimiter) (s : TokenBucketState) (now : ℚ)
    (hrate : 0 < tb.Rate) :
    (TokenBucketLimiter.State tb s now).1 = s
  ∧ (s.tokens = none →
      (TokenBucketLimiter.State tb s now).2 =
        .ok { Level := tb.Capacity, Remaining := tb.Capacity, Capacity := tb.Capacity
              Rate := tb.Rate, LastUpdated := now, NextAvailableTime := now
              type := "token_bucket", Key := tb.Key })
  ∧ (∀ tok, s.tokens = some tok → s.ts = none →
      (TokenBucketLimiter.State tb s now).2 = .error .redisNil)
  ∧ (∀ tok ts0, s.tokens = some tok → s.ts = some ts0 →
      (TokenBucketLimiter.State tb s now).2 =
        .ok { Level := max 0 (min tb.Capacity (tok + max 0 (now - ts0) * tb.Rate / 1000))
              Remaining := max 0 (min tb.Capacity (tok + max 0 (now - ts0) * tb.Rate / 1000))
              Capacity := tb.Capacity, Rate := tb.Rate, LastUpdated := ts0
              NextAvailableTime :=
                if 1 ≤ max 0 (min tb.Capacity (tok + max 0 (now - ts0) * tb.Rate / 1000))
                then now
                else now +
                  (1 - max 0 (min tb.Capacity (tok + max 0 (now - ts0) * tb.Rate / 1000))) /
                    tb.Rate * 1000
              type := "token_bucket", Key := tb.Key }) := by
  refine ⟨?_, ?_, ?_, ?_⟩
  · rcases s with ⟨tokens, ts⟩
    cases tokens <;> cases ts <;> rfl
  · intro h
    rcases s with ⟨tokens, ts⟩
    cases h
    rfl
  · intro tok h1 h2
    rcases s with ⟨tokens, ts⟩
    cases h1
    cases h2
    rfl
  · intro tok ts0 h1 h2
    rcases s with ⟨tokens, ts⟩
    cases h1
    cases h2
    simp only [TokenBucketLimiter.State, clampZero_eq_max, clampCap_eq_min, ge_iff_le]
    split
    · rfl
    · rename_i hlt
      have h0 : (0 : ℚ) ≤
          (1 - max 0 (min tb.Capacity (tok + max 0 (now - ts0) * tb.Rate / 1000))) / tb.Rate :=
        le_of_lt (div_pos (by linarith [not_le.mp hlt]) hrate)
      rw [max_eq_right h0]

/-- C6 witness: the State theorem evaluated at a concrete store state. -/
theorem tokenBucketState_behavior_witness :
    (TokenBucketLimiter.State ⟨"k", "tbucket", 2, 10, 2000000000⟩ ⟨some 4, some 0⟩ 500).1 =
      ⟨some 4, some 0⟩ ∧
    (TokenBucketLimiter.State ⟨"k", "tbucket", 2, 10, 2000000000⟩ ⟨some 4, some 0⟩ 500).2 =
      .ok { Level := max 0 (min 10 (4 + max 0 ((500 : ℚ) - 0) * 2 / 1000))
            Remaining := max 0 (min 10 (4 + max 0 ((500 : ℚ) - 0) * 2 / 1000))
            Capacity := 10, Rate := 2, LastUpdated := 0
            NextAvailableTime :=
              if 1 ≤ max 0 (min 10 (4 + max 0 ((500 : ℚ) - 0) * 2 / 1000)) then 500
              else 500 + (1 - max 0 (min 10 (4 + max 0 ((500 : ℚ) - 0) * 2 / 1000))) / 2 * 1000
            type := "token_bucket", Key := "k" } := by
  refine ⟨(tokenBucketState_behavior _ _ _ (by norm_num)).1, ?_⟩
  exact (tokenBucketState_behavior _ _ _ (by norm_num)).2.2.2 4 0 rfl rfl

/- ### Shard routing (claim C7) -/

/-- FNV-1a 32-bit over a byte sequence: offset basis 2166136261, prime
16777619, all arithmetic modulo 2^32 (hash/fnv New32a + Write + Sum32). -/
def fnv1a32 (bytes : List ℕ) : ℕ :=
  bytes.foldl (fun h b => ((h ^^^ b) * 16777619) % 4294967296) 2166136261

/-- ShardedTokenBucketLimiter.pick: FNV-1a-32 of the shard key bytes
modulo the shard count. -/
def ShardedTokenBucketLimiter.pick (count : ℕ) (shardKey : List ℕ) : ℕ :=
  fnv1a32 shardKey % count

/-- ShardedSlidingWindowLimiter.pick: same computation. -/
def ShardedSlidingWindowLimiter.pick (count : ℕ) (shardKey : List ℕ) : ℕ :=
  fnv1a32 shardKey % count

/-- ShardedLeakyBucketLimiter.pick: same computation. -/
def ShardedLeakyBucketLimiter.pick (count : ℕ) (shardKey : List ℕ) : ℕ :=
  fnv1a32 shardKey % count

/-- ShardedRedisTokenBucket.shardFor: one shard short-circuits to index
0, otherwise FNV-1a-32 modulo the shard count. -/
def ShardedRedisTokenBucket.shardFor (shards : ℕ) (shardKey : List ℕ) : ℕ :=
  if shards = 1 then 0 else fnv1a32 shardKey % shards

/-- C7: shard routing is the pure function FNV-1a-32 of the shard key
bytes modulo the shard count: equal keys always select the same index,
the index lies in [0, shardCount), the routing of all sharded limiters
(the legacy one included) coincides, and it depends on nothing but the
key bytes and the count. -/
theorem shardPick_deterministic_range (count : ℕ) (k1 k2 : List ℕ) (hc : 0 < count) :
    (k1 = k2 → ShardedTokenBucketLimiter.pick count k1 = ShardedTokenBucketLimiter.pick count k2)
  ∧ ShardedTokenBucketLimiter.pick count k1 < count
  ∧ ShardedSlidingWindowLimiter.pick count k1 = ShardedTokenBucketLimiter.pick count k1
  ∧ ShardedLeakyBucketLimiter.pick count k1 = ShardedTokenBucketLimiter.pick count k1
  ∧ ShardedRedisTokenBucket.shardFor count k1 = ShardedTokenBucketLimiter.pick count k1
  ∧ ShardedTokenBucketLimiter.pick count k1 = fnv1a32 k1 % count := by
  refine ⟨fun h => by rw [h], Nat.mod_lt _ hc, rfl, rfl, ?_, rfl⟩
  unfold ShardedRedisTokenBucket.shardFor ShardedTokenBucketLimiter.pick
  split
  · rename_i h
    subst h
    rw [Nat.mod_one]
  · rfl

/-- C7 witness: the routing theorem at a concrete key and count. -/
theorem shardPick_deterministic_range_witness :
    ShardedTokenBucketLimiter.pick 4 [117, 115, 101, 114] < 4 ∧
    ShardedRedisTokenBucket.shardFor 4 [117, 115, 101, 114] =
      ShardedTokenBucketLimiter.pick 4 [117, 115, 101, 114] := by
  have h := shardPick_deterministic_range 4 [117, 115, 101, 114] [117, 115, 101, 114]
    (by norm_num)
  exact ⟨h.2.1, h.2.2.2.2.1⟩

/- ### Construction options (claims C8, C9, C10) -/

/-- WithTokenBucketRate: a non-positive rate panics (modelled as error),
halting construction. -/
def withTokenBucketRate (rate : ℚ) (tb : TokenBucketLimiter) : Except String TokenBucketLimiter :=
  if rate ≤ 0 then .error "token bucket: rate must > 0"
  else .ok { tb with Rate := rate }

/-- WithTokenBucketCapacity: a non-positive capacity panics. -/
def withTokenBucketCapacity (cap : ℚ) (tb : TokenBucketLimiter) : Except String TokenBucketLimiter :=
  if cap ≤ 0 then .error "token bucket: capacity must > 0"
  else .ok { tb with Capacity := cap }

/-- WithTokenBucketTTL: only a positive ttl is applied; a non-positive
one is silently ignored. -/
def withTokenBucketTTL (ttl : ℤ) (tb : TokenBucketLimiter) : Except String TokenBucketLimiter :=
  .ok (if ttl > 0 then { tb with TTL := ttl } else tb)

/-- WithTokenBucketPrefix: only a non-empty string is applied. -/
def withTokenBucketPfx (p : String) (tb : TokenBucketLimiter) : Except String TokenBucketLimiter :=
  .ok (if p ≠ "" then { tb with pfx := p } else tb)

/-- The recognized token-bucket options of the caller-facing API. -/
inductive TokenBucketOption
  | rate (r : ℚ)
  | capacity (c : ℚ)
  | ttl (d : ℤ)
  | pfx (p : String)
deriving Repr

/-- Application of one token-bucket option. -/
def applyTokenBucketOption (tb : TokenBucketLimiter) (o : TokenBucketOption) :
    Except String TokenBucketLimiter :=
  match o with
  | .rate r => withTokenBucketRate r tb
  | .capacity c => withTokenBucketCapacity c tb
  | .ttl d => withTokenBucketTTL d tb
  | .pfx p => withTokenBucketPfx p tb

/-- The option loop of NewTokenBucketLimiter. -/
def applyTokenBucketOptions (tb : TokenBucketLimiter) (opts : List TokenBucketOption) :
    Except String TokenBucketLimiter :=
  opts.foldlM applyTokenBucketOption tb

/-- The defaults NewTokenBucketLimiter starts from. -/
def defaultTokenBucket (key : String) : TokenBucketLimiter :=
  { Key := key, pfx := "tbucket", Rate := 100, Capacity := 100, TTL := 2000000000 }

/-- NewTokenBucketLimiter: nil client or empty key aborts, then options
are applied in order over the defaults. -/
def NewTokenBucketLimiter (clientIsNil : Bool) (key : String) (opts : List TokenBucketOption) :
    Except String TokenBucketLimiter :=
  if clientIsNil then .error "token bucket: redis client is nil"
  else if key = "" then .error "token bucket: key is empty"
  else applyTokenBucketOptions (defaultTokenBucket key) opts

/-- WithSlidingWindowWindow: only a positive window is applied. -/
def withSlidingWindowWindow (d : ℤ) (l : SingleSlidingWindowLimiter) :
    Except String SingleSlidingWindowLimiter :=
  .ok (if d > 0 then { l with Window := d } else l)

/-- WithSlidingWindowLimit: only a positive limit is applied. -/
def withSlidingWindowLimit (limit : ℤ) (l : SingleSlidingWindowLimiter) :
    Except String SingleSlidingWindowLimiter :=
  .ok (if limit > 0 then { l with Limit := limit } else l)

/-- WithSlidingWindowTTL: only a positive ttl is applied. -/
def withSlidingWindowTTL (ttl : ℤ) (l : SingleSlidingWindowLimiter) :
    Except String SingleSlidingWindowLimiter :=
  .ok (if ttl > 0 then { l with TTL := ttl } else l)

/-- WithSlidingWindowPrefix: only a non-empty string is applied. -/
def withSlidingWindowPfx (p : String) (l : SingleSlidingWindowLimiter) :
    Except String SingleSlidingWindowLimiter :=
  .ok (if p ≠ "" then { l with pfx := p } else l)

/-- The recognized sliding-window options. -/
inductive SlidingWindowOption
  | window (d : ℤ)
  | limit (n : ℤ)
  | ttl (d : ℤ)
  | pfx (p : String)
deriving Repr

/-- Application of one sliding-window option. -/
def applySlidingWindowOption (l : SingleSlidingWindowLimiter) (o : SlidingWindowOption) :
    Except String SingleSlidingWindowLimiter :=
  match o with
  | .window d => withSlidingWindowWindow d l
  | .limit n => withSlidingWindowLimit n l
  | .ttl d => withSlidingWindowTTL d l
  | .pfx p => withSlidingWindowPfx p l

/-- The option loop of NewSlidingWindowLimiter. -/
def applySlidingWindowOptions (l : SingleSlidingWindowLimiter) (opts : List SlidingWindowOption) :
    Except String SingleSlidingWindowLimiter :=
  opts.foldlM applySlidingWindowOption l

/-- The defaults NewSlidingWindowLimiter starts from (window one minute,
limit 60, ttl two minutes, in nanoseconds). -/
def defaultSlidingWindow (key : String) : SingleSlidingWindowLimiter :=
  { Key := key, pfx := "sw", Window := 60000000000, Limit := 60, TTL := 120000000000 }

/-- NewSlidingWindowLimiter. -/
def NewSlidingWindowLimiter (clientIsNil : Bool) (key : String)
    (opts : List SlidingWindowOption) : Except String SingleSlidingWindowLimiter :=
  if clientIsNil then .error "sliding window: redis client is nil"
  else if key = "" then .error "sliding window: key is empty"
  else applySlidingWindowOptions (defaultSlidingWindow key) opts

/-- WithLeakyBucketRate: a non-positive leak rate panics. -/
def withLeakyBucketRate (leakRate : ℚ) (l : LeakyBucketLimiter) :
    Except String LeakyBucketLimiter :=
  if leakRate ≤ 0 then .error "leaky bucket: leakRate must > 0"
  else .ok { l with LeakRate := leakRate }

/-- WithLeakyBucketCapacity: a non-positive capacity panics. -/
def withLeakyBucketCapacity (cap : ℚ) (l : LeakyBucketLimiter) :
    Except String LeakyBucketLimiter :=
  if cap ≤ 0 then .error "leaky bucket: capacity must > 0"
  else .ok { l with Capacity := cap }

/-- WithLeakyBucketTTL: only a positive ttl is applied. -/
def withLeakyBucketTTL (ttl : ℤ) (l : LeakyBucketLimiter) : Except String LeakyBucketLimiter :=
  .ok (if ttl > 0 then { l with TTL := ttl } else l)

/-- WithLeakyBucketPrefix: only a non-empty string is applied. -/
def withLeakyBucketPfx (p : String) (l : LeakyBucketLimiter) : Except String LeakyBucketLimiter :=
  .ok (if p ≠ "" then { l with pfx := p } else l)

/-- The recognized leaky-bucket options. -/
inductive LeakyBucketOption
  | rate (r : ℚ)
  | capacity (c : ℚ)
  | ttl (d : ℤ)
  | pfx (p : String)
deriving Repr

/-- Application of one leaky-bucket option. -/
def applyLeakyBucketOption (l : LeakyBucketLimiter) (o : LeakyBucketOption) :
    Except String LeakyBucketLimiter :=
  match o with
  | .rate r => withLeakyBucketRate r l
  | .capacity c => withLeakyBucketCapacity c l
  | .ttl d => withLeakyBucketTTL d l
  | .pfx p => withLeakyBucketPfx p l

/-- The option loop of NewLeakyBucketLimiter. -/
def applyLeakyBucketOptions (l : LeakyBucketLimiter) (opts : List LeakyBucketOption) :
    Except String LeakyBucketLimiter :=
  opts.foldlM applyLeakyBucketOption l

/-- The defaults NewLeakyBucketLimiter starts from. -/
def defaultLeakyBucket (key : String) : LeakyBucketLimiter :=
  { Key := key, pfx := "lb", LeakRate := 100, Capacity := 100, TTL := 2000000000 }

/-- NewLeakyBucketLimiter. -/
def NewLeakyBucketLimiter (clientIsNil : Bool) (key : String) (opts : List LeakyBucketOption) :
    Except String LeakyBucketLimiter :=
  if clientIsNil then .error "leaky bucket: redis client is nil"
  else if key = "" then .error "leaky bucket: key is empty"
  else applyLeakyBucketOptions (defaultLeakyBucket key) opts

/-- The per-shard scaling custom option of NewShardedTokenBucketLimiter:
rate and capacity divided by the shard count, each replaced by 1 when the
quotient is non-positive. -/
def shardScaleTokenBucket (shardCount : ℕ) (tb : TokenBucketLimiter) : TokenBucketLimiter :=
  let r0 := tb.Rate / (shardCount : ℚ)
  let r := if r0 ≤ 0 then 1 else r0
  let c0 := tb.Capacity / (shardCount : ℚ)
  let c := if c0 ≤ 0 then 1 else c0
  { tb with Rate := r, Capacity := c }

/-- The per-shard scaling custom option of NewShardedSlidingWindowLimiter:
the limit is divided (Go integer division truncates toward zero, hence
Int.tdiv) by the shard count and replaced by 1 when non-positive. -/
def shardScaleSlidingWindow (shardCount : ℕ) (l : SingleSlidingWindowLimiter) :
    SingleSlidingWindowLimiter :=
  let q := Int.tdiv l.Limit (shardCount : ℤ)
  { l with Limit := if q ≤ 0 then 1 else q }

/-- The per-shard scaling custom option of NewShardedLeakyBucketLimiter. -/
def shardScaleLeakyBucket (shardCount : ℕ) (l : LeakyBucketLimiter) : LeakyBucketLimiter :=
  let r0 := l.LeakRate / (shardCount : ℚ)
  let r := if r0 ≤ 0 then 1 else r0
  let c0 := l.Capacity / (shardCount : ℚ)
  let c := if c0 ≤ 0 then 1 else c0
  { l with LeakRate := r, Capacity := c }

/-- NewShardedTokenBucketLimiter: shardCount at most 0 becomes 16; shard
i is a single limiter built from a copy of the caller options on the key
"key:shard:i", then scaled by the shard count. -/
def NewShardedTokenBucketLimiter (clientIsNil : Bool) (key : String) (shardCount : ℤ)
    (opts : List TokenBucketOption) : Except String (List TokenBucketLimiter) :=
  if clientIsNil then .error "sharded token bucket: redis client is nil"
  else if key = "" then .error "sharded token bucket: key is empty"
  else
    let count := if shardCount ≤ 0 then 16 else shardCount
    (List.range count.toNat).mapM fun i =>
      Except.map (shardScaleTokenBucket count.toNat)
        (NewTokenBucketLimiter false (key ++ ":shard:" ++ toString i) opts)

/-- NewShardedSlidingWindowLimiter. -/
def NewShardedSlidingWindowLimiter (clientIsNil : Bool) (key : String) (shardCount : ℤ)
    (opts : List SlidingWindowOption) : Except String (List SingleSlidingWindowLimiter) :=
  if clientIsNil then .error "sharded sliding window: redis client is nil"
  else if key = "" then .error "sharded sliding window: key is empty"
  else
    let count := if shardCount ≤ 0 then 16 else shardCount
    (List.range count.toNat).mapM fun i =>
      Except.map (shardScaleSlidingWindow count.toNat)
        (NewSlidingWindowLimiter false (key ++ ":shard:" ++ toString i) opts)

/-- NewShardedLeakyBucketLimiter. -/
def NewShardedLeakyBucketLimiter (clientIsNil : Bool) (key : String) (shardCount : ℤ)
    (opts : List LeakyBucketOption) : Except String (List LeakyBucketLimiter) :=
  if clientIsNil then .error "sharded leaky bucket: redis client is nil"
  else if key = "" then .error "sharded leaky bucket: key is empty"
  else
    let count := if shardCount ≤ 0 then 16 else shardCount
    (List.range count.toNat).mapM fun i =>
      Except.map (shardScaleLeakyBucket count.toNat)
        (NewLeakyBucketLimiter false (key ++ ":shard:" ++ toString i) opts)

/- ### Helper lemmas about option application -/

/-- Shared helper: token-bucket options neither read nor write the
business key. -/
theorem applyTokenBucketOption_key (tb : TokenBucketLimiter) (k : String) (o : TokenBucketOption) :
    applyTokenBucketOption { tb with Key := k } o =
      Except.map (fun t => { t with Key := k }) (applyTokenBucketOption tb o) := by
  cases o <;>
    simp only [applyTokenBucketOption, withTokenBucketRate, withTokenBucketCapacity,
      withTokenBucketTTL, withTokenBucketPfx] <;>
    split <;> rfl

/-- Shared helper: the token-bucket option loop commutes with setting the
business key. -/
theorem applyTokenBucketOptions_key (opts : List TokenBucketOption) (tb : TokenBucketLimiter)
    (k : String) :
    applyTokenBucketOptions { tb with Key := k } opts =
      Except.map (fun t => { t with Key := k }) (applyTokenBucketOptions tb opts) := by
  induction opts generalizing tb with
  | nil => rfl
  | cons o os ih =>
    simp only [applyTokenBucketOptions, List.foldlM_cons]
    rw [applyTokenBucketOption_key]
    cases h : applyTokenBucketOption tb o with
    | error e => rfl
    | ok t => simpa [applyTokenBucketOptions] using ih t

/-- Shared helper: sliding-window options neither read nor write the
business key. -/
theorem applySlidingWindowOption_key (l : SingleSlidingWindowLimiter) (k : String)
    (o : SlidingWindowOption) :
    applySlidingWindowOption { l with Key := k } o =
      Except.map (fun t => { t with Key := k }) (applySlidingWindowOption l o) := by
  cases o <;>
    simp only [applySlidingWindowOption, withSlidingWindowWindow, withSlidingWindowLimit,
      withSlidingWindowTTL, withSlidingWindowPfx] <;>
    split <;> rfl

/-- Shared helper: the sliding-window option loop commutes with setting
the business key. -/
theorem applySlidingWindowOptions_key (opts : List SlidingWindowOption)
    (l : SingleSlidingWindowLimiter) (k : String) :
    applySlidingWindowOptions { l with Key := k } opts =
      Except.map (fun t => { t with Key := k }) (applySlidingWindowOptions l opts) := by
  induction opts generalizing l with
  | nil => rfl
  | cons o os ih =>
    simp only [applySlidingWindowOptions, List.foldlM_cons]
    rw [applySlidingWindowOption_key]
    cases h : applySlidingWindowOption l o with
    | error e => rfl
    | ok t => simpa [applySlidingWindowOptions] using ih t

/-- Shared helper: leaky-bucket options neither read nor write the
business key. -/
theorem applyLeakyBucketOption_key (l : LeakyBucketLimiter) (k : String) (o : LeakyBucketOption) :
    applyLeakyBucketOption { l with Key := k } o =
      Except.map (fun t => { t with Key := k }) (applyLeakyBucketOption l o) := by
  cases o <;>
    simp only [applyLeakyBucketOption, withLeakyBucketRate, withLeakyBucketCapacity,
      withLeakyBucketTTL, withLeakyBucketPfx] <;>
    split <;> rfl

/-- Shared helper: the leaky-bucket option loop commutes with setting the
business key. -/
theorem applyLeakyBucketOptions_key (opts : List LeakyBucketOption) (l : LeakyBucketLimiter)
    (k : String) :
    applyLeakyBucketOptions { l with Key := k } opts =
      Except.map (fun t => { t with Key := k }) (applyLeakyBucketOptions l opts) := by
  induction opts generalizing l with
  | nil => rfl
  | cons o os ih =>
    simp only [applyLeakyBucketOptions, List.foldlM_cons]
    rw [applyLeakyBucketOption_key]
    cases h : applyLeakyBucketOption l o with
    | error e => rfl
    | ok t => simpa [applyLeakyBucketOptions] using ih t

/-- Shared helper: mapping a function that succeeds on every element with
value f a over a list succeeds with the mapped list. -/
theorem list_mapM_ok {α β : Type} (l : List α) (g : α → Except String β) (f : α → β)
    (h : ∀ a ∈ l, g a = .ok (f a)) : l.mapM g = .ok (l.map f) := by
  induction l with
  | nil => rfl
  | cons a as ih =>
    simp only [List.mapM_cons, h a (List.mem_cons_self _ _), List.map_cons]
    rw [ih (fun a' ha' => h a' (List.mem_cons_of_mem _ ha'))]
    rfl

/-- Shared helper: a per-shard business key is never empty. -/
theorem shardKey_ne_empty (key t : String) : key ++ ":shard:" ++ t ≠ "" := by
  intro h
  have hl := congrArg String.length h
  rw [String.length_append, String.length_append] at hl
  have h7 : (":shard:" : String).length = 7 := rfl
  have h0 : ("" : String).length = 0 := rfl
  omega

/-- Shared helper: a single token-bucket construction on a non-empty key
is the base configuration produced by the options with the key set. -/
theorem NewTokenBucketLimiter_ok (key : String) (hk : ¬ key = "")
    (opts : List TokenBucketOption) (base : TokenBucketLimiter)
    (hbase : applyTokenBucketOptions (defaultTokenBucket "") opts = .ok base) :
    NewTokenBucketLimiter false key opts = .ok { base with Key := key } := by
  unfold NewTokenBucketLimiter
  rw [if_neg (by simp), if_neg hk]
  have hd : defaultTokenBucket key = { defaultTokenBucket "" with Key := key } := rfl
  rw [hd, applyTokenBucketOptions_key, hbase]
  rfl

/-- Shared helper: analog of the previous lemma for the sliding window. -/
theorem NewSlidingWindowLimiter_ok (key : String) (hk : ¬ key = "")
    (opts : List SlidingWindowOption) (base : SingleSlidingWindowLimiter)
    (hbase : applySlidingWindowOptions (defaultSlidingWindow "") opts = .ok base) :
    NewSlidingWindowLimiter false key opts = .ok { base with Key := key } := by
  unfold NewSlidingWindowLimiter
  rw [if_neg (by simp), if_neg hk]
  have hd : defaultSlidingWindow key = { defaultSlidingWindow "" with Key := key } := rfl
  rw [hd, applySlidingWindowOptions_key, hbase]
  rfl

/-- Shared helper: analog of the previous lemma for the leaky bucket. -/
theorem NewLeakyBucketLimiter_ok (key : String) (hk : ¬ key = "")
    (opts : List LeakyBucketOption) (base : LeakyBucketLimiter)
    (hbase : applyLeakyBucketOptions (defaultLeakyBucket "") opts = .ok base) :
    NewLeakyBucketLimiter false key opts = .ok { base with Key := key } := by
  unfold NewLeakyBucketLimiter
  rw [if_neg (by simp), if_neg hk]
  have hd : defaultLeakyBucket key = { defaultLeakyBucket "" with Key := key } := rfl
  rw [hd, applyLeakyBucketOptions_key, hbase]
  rfl

/- ### Theorems for claim C8 -/

/-- C8: sharded construction with shardCount at most 0 uses 16 shards;
shard i receives the business key "key:shard:i"; and after the caller
options are applied each numeric budget is divided by the shard count and
replaced by 1 exactly when the quotient is non-positive (rate and
capacity for token and leaky bucket, limit via truncated integer division
for the sliding window). -/
theorem shardedConstruction_behavior (key : String) (hk : key ≠ "") (shardCount : ℤ)
    (tbOpts : List TokenBucketOption) (tbBase : TokenBucketLimiter)
    (htb : applyTokenBucketOptions (defaultTokenBucket "") tbOpts = .ok tbBase)
    (swOpts : List SlidingWindowOption) (swBase : SingleSlidingWindowLimiter)
    (hsw : applySlidingWindowOptions (defaultSlidingWindow "") swOpts = .ok swBase)
    (lbOpts : List LeakyBucketOption) (lbBase : LeakyBucketLimiter)
    (hlb : applyLeakyBucketOptions (defaultLeakyBucket "") lbOpts = .ok lbBase) :
    (shardCount ≤ 0 → (if shardCount ≤ 0 then (16 : ℤ) else shardCount) = 16)
  ∧ NewShardedTokenBucketLimiter false key shardCount tbOpts =
      .ok ((List.range (if shardCount ≤ 0 then (16 : ℤ) else shardCount).toNat).map (fun i =>
        { Key := key ++ ":shard:" ++ toString i
          pfx := tbBase.pfx
          Rate :=
            if tbBase.Rate / (((if shardCount ≤ 0 then (16 : ℤ) else shardCount).toNat : ℚ)) ≤ 0
            then 1
            else tbBase.Rate / (((if shardCount ≤ 0 then (16 : ℤ) else shardCount).toNat : ℚ))
          Capacity :=
            if tbBase.Capacity / (((if shardCount ≤ 0 then (16 : ℤ) else shardCount).toNat : ℚ)) ≤ 0
            then 1
            else tbBase.Capacity / (((if shardCount ≤ 0 then (16 : ℤ) else shardCount).toNat : ℚ))
          TTL := tbBase.TTL }))
  ∧ NewShardedSlidingWindowLimiter false key shardCount swOpts =
      .ok ((List.range (if shardCount ≤ 0 then (16 : ℤ) else shardCount).toNat).map (fun i =>
        { Key := key ++ ":shard:" ++ toString i
          pfx := swBase.pfx
          Window := swBase.Window
          Limit :=
            if Int.tdiv swBase.Limit (((if shardCount ≤ 0 then (16 : ℤ) else shardCount).toNat : ℤ)) ≤ 0
            then 1
            else Int.tdiv swBase.Limit (((if shardCount ≤ 0 then (16 : ℤ) else shardCount).toNat : ℤ))
          TTL := swBase.TTL }))
  ∧ NewShardedLeakyBucketLimiter false key shardCount lbOpts =
      .ok ((List.range (if shardCount ≤ 0 then (16 : ℤ) else shardCount).toNat).map (fun i =>
        { Key := key ++ ":shard:" ++ toString i
          pfx := lbBase.pfx
          LeakRate :=
            if lbBase.LeakRate / (((if shardCount ≤ 0 then (16 : ℤ) else shardCount).toNat : ℚ)) ≤ 0
            then 1
            else lbBase.LeakRate / (((if shardCount ≤ 0 then (16 : ℤ) else shardCount).toNat : ℚ))
          Capacity :=
            if lbBase.Capacity / (((if shardCount ≤ 0 then (16 : ℤ) else shardCount).toNat : ℚ)) ≤ 0
            then 1
            else lbBase.Capacity / (((if shardCount ≤ 0 then (16 : ℤ) else shardCount).toNat : ℚ))
          TTL := lbBase.TTL })) := by
  refine ⟨fun h => if_pos h, ?_, ?_, ?_⟩
  · simp only [NewShardedTokenBucketLimiter]
    rw [if_neg (by simp), if_neg hk]
    refine list_mapM_ok _ _ _ ?_
    intro i hi
    rw [NewTokenBucketLimiter_ok _ (shardKey_ne_empty key (toString i)) tbOpts tbBase htb]
    rfl
  · simp only [NewShardedSlidingWindowLimiter]
    rw [if_neg (by simp), if_neg hk]
    refine list_mapM_ok _ _ _ ?_
    intro i hi
    rw [NewSlidingWindowLimiter_ok _ (shardKey_ne_empty key (toString i)) swOpts swBase hsw]
    rfl
  · simp only [NewShardedLeakyBucketLimiter]
    rw [if_neg (by simp), if_neg hk]
    refine list_mapM_ok _ _ _ ?_
    intro i hi
    rw [NewLeakyBucketLimiter_ok _ (shardKey_ne_empty key (toString i)) lbOpts lbBase hlb]
    rfl

/-- C8 witness: the sharded construction theorem at shardCount 0 (count
defaulting) and at shardCount 2 with no options. -/
theorem shardedConstruction_behavior_witness :
    ((if (0 : ℤ) ≤ 0 then (16 : ℤ) else 0) = 16) ∧
    NewShardedTokenBucketLimiter false "g" 2 [] =
      .ok [{ Key := "g:shard:0", pfx := "tbucket", Rate := 50, Capacity := 50, TTL := 2000000000 },
           { Key := "g:shard:1", pfx := "tbucket", Rate := 50, Capacity := 50, TTL := 2000000000 }] := by
  constructor
  · exact (shardedConstruction_behavior "g" (by decide) 0 [] _ rfl [] _ rfl [] _ rfl).1
      (by norm_num)
  · have h := (shardedConstruction_behavior "g" (by decide) 2 [] _ rfl [] _ rfl [] _ rfl).2.1
    rw [h]
    have h2 : Int.toNat 2 = 2 := rfl
    have hk0 : ("g" ++ ":shard:" ++ toString (0 : ℕ) : String) = "g:shard:0" := rfl
    have hk1 : ("g" ++ ":shard:" ++ toString (1 : ℕ) : String) = "g:shard:1" := rfl
    norm_num [h2, defaultTokenBucket, List.range_succ, hk0, hk1]

/- ### Theorems for claim C9 -/

/-- C9 counterexample: a non-positive TTL option does not halt
construction: WithTokenBucketTTL(-1) is silently ignored and the limiter
is built with the default TTL. The same silent-ignore shape applies to
the sliding-window window and limit options. -/
theorem failFast_counterexample :
    NewTokenBucketLimiter false "k" [.ttl (-1)] =
      .ok { Key := "k", pfx := "tbucket", Rate := 100, Capacity := 100, TTL := 2000000000 } ∧
    NewSlidingWindowLimiter false "k" [.window (-5), .limit (-3)] =
      .ok { Key := "k", pfx := "sw", Window := 60000000000, Limit := 60, TTL := 120000000000 } := by
  exact ⟨rfl, rfl⟩

/-- C9 amended: a nil store handle or an empty key aborts every
construction, and a non-positive rate or capacity option (token and leaky
bucket) panics, halting construction; but the non-positive ttl, window
and limit options are silently ignored, leaving the default in place,
rather than halting construction. -/
theorem constructionErrors_behavior :
    (∀ (key : String) (opts : List TokenBucketOption),
      NewTokenBucketLimiter true key opts = .error "token bucket: redis client is nil")
  ∧ (∀ (opts : List TokenBucketOption),
      NewTokenBucketLimiter false "" opts = .error "token bucket: key is empty")
  ∧ (∀ (key : String) (opts : List SlidingWindowOption),
      NewSlidingWindowLimiter true key opts = .error "sliding window: redis client is nil")
  ∧ (∀ (opts : List SlidingWindowOption),
      NewSlidingWindowLimiter false "" opts = .error "sliding window: key is empty")
  ∧ (∀ (key : String) (opts : List LeakyBucketOption),
      NewLeakyBucketLimiter true key opts = .error "leaky bucket: redis client is nil")
  ∧ (∀ (opts : List LeakyBucketOption),
      NewLeakyBucketLimiter false "" opts = .error "leaky bucket: key is empty")
  ∧ (∀ (key : String) (shardCount : ℤ) (opts : List TokenBucketOption),
      NewShardedTokenBucketLimiter true key shardCount opts =
        .error "sharded token bucket: redis client is nil")
  ∧ (∀ (shardCount : ℤ) (opts : List TokenBucketOption),
      NewShardedTokenBucketLimiter false "" shardCount opts =
        .error "sharded token bucket: key is empty")
  ∧ (∀ (r : ℚ) (tb : TokenBucketLimiter), r ≤ 0 →
      withTokenBucketRate r tb = .error "token bucket: rate must > 0")
  ∧ (∀ (c : ℚ) (tb : TokenBucketLimiter), c ≤ 0 →
      withTokenBucketCapacity c tb = .error "token bucket: capacity must > 0")
  ∧ (∀ (r : ℚ) (l : LeakyBucketLimiter), r ≤ 0 →
      withLeakyBucketRate r l = .error "leaky bucket: leakRate must > 0")
  ∧ (∀ (c : ℚ) (l : LeakyBucketLimiter), c ≤ 0 →
      withLeakyBucketCapacity c l = .error "leaky bucket: capacity must > 0")
  ∧ (∀ (d : ℤ) (tb : TokenBucketLimiter), d ≤ 0 → withTokenBucketTTL d tb = .ok tb)
  ∧ (∀ (d : ℤ) (l : SingleSlidingWindowLimiter), d ≤ 0 → withSlidingWindowWindow d l = .ok l)
  ∧ (∀ (n : ℤ) (l : SingleSlidingWindowLimiter), n ≤ 0 → withSlidingWindowLimit n l = .ok l)
  ∧ (∀ (d : ℤ) (l : SingleSlidingWindowLimiter), d ≤ 0 → withSlidingWindowTTL d l = .ok l)
  ∧ (∀ (d : ℤ) (l : LeakyBucketLimiter), d ≤ 0 → withLeakyBucketTTL d l = .ok l) := by
  refine ⟨fun key opts => rfl, fun opts => rfl, fun key opts => rfl, fun opts => rfl,
    fun key opts => rfl, fun opts => rfl, fun key shardCount opts => rfl,
    fun shardCount opts => rfl, ?_, ?_, ?_, ?_, ?_, ?_, ?_, ?_, ?_⟩
  · intro r tb h
    rw [withTokenBucketRate, if_pos h]
  · intro c tb h
    rw [withTokenBucketCapacity, if_pos h]
  · intro r l h
    rw [withLeakyBucketRate, if_pos h]
  · intro c l h
    rw [withLeakyBucketCapacity, if_pos h]
  · intro d tb h
    rw [withTokenBucketTTL, if_neg (by omega)]
  · intro d l h
    rw [withSlidingWindowWindow, if_neg (by omega)]
  · intro n l h
    rw [withSlidingWindowLimit, if_neg (by omega)]
  · intro d l h
    rw [withSlidingWindowTTL, if_neg (by omega)]
  · intro d l h
    rw [withLeakyBucketTTL, if_neg (by omega)]

/-- C9 witness: the construction-error theorem at concrete inputs. -/
theorem constructionErrors_behavior_witness :
    NewTokenBucketLimiter true "k" [] = .error "token bucket: redis client is nil" ∧
    withTokenBucketRate (-1) (defaultTokenBucket "k") = .error "token bucket: rate must > 0" ∧
    withTokenBucketTTL (-1) (defaultTokenBucket "k") = .ok (defaultTokenBucket "k") ∧
    withSlidingWindowLimit 0 (defaultSlidingWindow "k") = .ok (defaultSlidingWindow "k") := by
  refine ⟨constructionErrors_behavior.1 "k" [], ?_, ?_, ?_⟩
  · exact constructionErrors_behavior.2.2.2.2.2.2.2.2.1 (-1) (defaultTokenBucket "k")
      (by norm_num)
  · exact constructionErrors_behavior.2.2.2.2.2.2.2.2.2.2.2.2.1 (-1) (defaultTokenBucket "k")
      (by norm_num)
  · exact constructionErrors_behavior.2.2.2.2.2.2.2.2.2.2.2.2.2.2.1 0 (defaultSlidingWindow "k")
      (by norm_num)

/- ### Theorems for claim C10 -/

/-- C10: with no options the limiters carry these defaults: token bucket
rate 100 per second, capacity 100, ttl 2 seconds, key segment "tbucket";
sliding window window one minute, limit 60, ttl two minutes, segment
"sw"; leaky bucket leak rate 100 per second, capacity 100, ttl 2 seconds,
segment "lb" (durations in nanoseconds). -/
theorem limiterDefaults (key : String) (hk : ¬ key = "") :
    NewTokenBucketLimiter false key [] =
      .ok { Key := key, pfx := "tbucket", Rate := 100, Capacity := 100, TTL := 2000000000 }
  ∧ NewSlidingWindowLimiter false key [] =
      .ok { Key := key, pfx := "sw", Window := 60000000000, Limit := 60, TTL := 120000000000 }
  ∧ NewLeakyBucketLimiter false key [] =
      .ok { Key := key, pfx := "lb", LeakRate := 100, Capacity := 100, TTL := 2000000000 } := by
  refine ⟨?_, ?_, ?_⟩
  · rw [NewTokenBucketLimiter, if_neg (by simp), if_neg hk]
    rfl
  · rw [NewSlidingWindowLimiter, if_neg (by simp), if_neg hk]
    rfl
  · rw [NewLeakyBucketLimiter, if_neg (by simp), if_neg hk]
    rfl

/-- C10 witness: the defaults theorem at a concrete key. -/
theorem limiterDefaults_witness :
    NewTokenBucketLimiter false "api" [] =
      .ok { Key := "api", pfx := "tbucket", Rate := 100, Capacity := 100, TTL := 2000000000 } ∧
    NewSlidingWindowLimiter false "api" [] =
      .ok { Key := "api", pfx := "sw", Window := 60000000000, Limit := 60, TTL := 120000000000 } ∧
    NewLeakyBucketLimiter false "api" [] =
      .ok { Key := "api", pfx := "lb", LeakRate := 100, Capacity := 100, TTL := 2000000000 } :=
  limiterDefaults "api" (by decide)
